import Mathlib

/-!
Shallow embedding of `src/server.py` (DreamSync backend): a FastAPI relay
with two endpoints, `/generate` (Gemini text generation) and `/narrate`
(Deepgram text-to-speech).  Pure Python fragments become Lean functions;
the outbound HTTP call is modelled by passing the upstream behaviour in as
an argument (`Except` transport-failure-or-response); the single file the
program ever touches (`output.wav`) is modelled as an explicit
single-slot file-system state threaded through the handlers.
-/

namespace DreamSync

/-- JSON values, as produced by `response.json()` in `src/server.py`.
Object fields are an association list (keys assumed unique, as for a
parsed JSON document). -/
inductive Json where
  | null
  | bool (b : Bool)
  | num (n : Int)
  | str (s : String)
  | arr (elems : List Json)
  | obj (fields : List (String × Json))
  deriving Repr

/-- The Python exceptions that can arise inside the handlers' `try` blocks. -/
inductive PyExc where
  | httpException (status : Nat) (detail : String)
  | requestException (msg : String)
  | indexError (msg : String)
  | attributeError (msg : String)
  | typeError (msg : String)
  deriving Repr, DecidableEq

/-- Python `str(e)` for the exceptions above.  For `fastapi.HTTPException`
(starlette), `str(e)` is `"{status_code}: {detail}"`; for the others it is
the message the exception was raised with. -/
def PyExc.pyStr : PyExc → String
  | .httpException status detail => toString status ++ ": " ++ detail
  | .requestException msg => msg
  | .indexError msg => msg
  | .attributeError msg => msg
  | .typeError msg => msg

/-- Python `d.get(key, default)`.  On a dict it looks the key up and falls
back to the default; on any non-dict value Python raises
`AttributeError` (no attribute `get`). -/
def Json.dictGet (j : Json) (key : String) (fallback : Json) : Except PyExc Json :=
  match j with
  | .obj fields => .ok ((fields.lookup key).getD fallback)
  | _ => .error (.attributeError "object has no attribute get")

/-- Python `x[0]`.  On a list it is the head (raising `IndexError` when the
list is empty); on a string it is the first character (as a 1-character
string); on anything else Python raises `TypeError`. -/
def pyIndex0 : Json → Except PyExc Json
  | .arr [] => .error (.indexError "list index out of range")
  | .arr (x :: _) => .ok x
  | .str s =>
    match s.data with
    | [] => .error (.indexError "string index out of range")
    | c :: _ => .ok (.str (String.mk [c]))
  | _ => .error (.typeError "object is not subscriptable")

/-- An upstream Gemini HTTP response as seen through `requests`:
`status_code`, the decoded body `text`, and what `response.json()` would
yield (`none` when the body is not valid JSON, in which case `.json()`
raises). -/
structure GeminiResponse where
  status_code : Nat
  text : String
  jsonBody : Option Json
  deriving Repr

/-- An upstream Deepgram HTTP response: `status_code`, the decoded body
`text`, and the raw body bytes `content`. -/
structure DeepgramResponse where
  status_code : Nat
  text : String
  content : List Nat
  deriving Repr, DecidableEq

/-- What a handler hands back to FastAPI:
`jsonOk body` — a plain dict return, sent with HTTP status 200;
`fileOk path mediaType filename body` — a `FileResponse` (status 200)
whose body is read back from the file at `path`;
`httpError status detail` — an `HTTPException` surfaced to the caller
with that status code and `{"detail": detail}` body. -/
inductive HttpResult where
  | jsonOk (body : Json)
  | fileOk (path : String) (mediaType : String) (filename : String) (body : List Nat)
  | httpError (status : Nat) (detail : String)
  deriving Repr

/-- The file system the program touches is the single fixed path
`output.wav`; `none` means the file does not exist yet. -/
abbrev Fs := Option (List Nat)

/-- `open(audio_path, "wb"); f.write(bytes)` — overwrite the slot. -/
def writeFile (_fs : Fs) (bytes : List Nat) : Fs := some bytes

/-- What `FileResponse` reads back from the slot at send time. -/
def readFile (fs : Fs) : List Nat := fs.getD []

/-- The extraction chain of `src/server.py` lines 54-59:
`response_data.get("candidates", [{}])[0].get("content", {})
.get("parts", [{}])[0].get("text", "No story generated.")`. -/
def extract_story (response_data : Json) : Except PyExc Json := do
  let candidates ← response_data.dictGet "candidates" (Json.arr [Json.obj []])
  let c0 ← pyIndex0 candidates
  let content ← c0.dictGet "content" (Json.obj [])
  let parts ← content.dictGet "parts" (Json.arr [Json.obj []])
  let p0 ← pyIndex0 parts
  p0.dictGet "text" (Json.str "No story generated.")

/-- The body of the `try` block in `generate_story`
(`src/server.py` lines 42-60), given the completed upstream response:
non-200 status raises `HTTPException(status, "Gemini API Error: " + text)`;
otherwise the JSON body is parsed (`response.json()` raising a
`requests`-flavoured decode error on invalid JSON) and the story text is
extracted; the handler returns the dict `{"story": story}`. -/
def generateTry (u : GeminiResponse) : Except PyExc Json := do
  if u.status_code ≠ 200 then
    throw (.httpException u.status_code ("Gemini API Error: " ++ u.text))
  let response_data ← match u.jsonBody with
    | some j => pure j
    | none => throw (.requestException "Expecting value: line 1 column 1 (char 0)")
  let story ← extract_story response_data
  return Json.obj [("story", story)]

/-- The `/generate` handler (`src/server.py` lines 35-66).
`upstream` is the behaviour of the outbound `requests.post`: `.error m`
when the call raises `requests.RequestException` with message `m`,
`.ok u` when it completes with response `u`.  The third component of the
result records whether the outbound call was attempted.  Note the control
flow of the source: the `HTTPException` raised inside the `try` block for
a non-200 upstream status is itself an `Exception`, so it is caught by the
handler's own `except Exception` clause (lines 65-66) and replaced by a
500 response. -/
def generate_story (prompt : String) (upstream : Except String GeminiResponse)
    (fs : Fs) : HttpResult × Fs × Bool :=
  if prompt = "" then (.httpError 400 "Prompt is required", fs, false)
  else
    match upstream with
    | .error msg => (.httpError 500 ("Failed to connect to Gemini API: " ++ msg), fs, true)
    | .ok u =>
      match generateTry u with
      | .ok body => (.jsonOk body, fs, true)
      | .error (.requestException m) =>
        (.httpError 500 ("Failed to connect to Gemini API: " ++ m), fs, true)
      | .error e =>
        (.httpError 500 ("An unexpected error occurred: " ++ e.pyStr), fs, true)

/-- Python `str.strip()` whitespace set (ASCII part). -/
def pyWhitespace (c : Char) : Bool :=
  c = ' ' || c = '\t' || c = '\n' || c = '\r' || c = '\x0b' || c = '\x0c'

/-- Python `s.strip()`. -/
def pyStrip (s : String) : String :=
  String.mk (((s.data.dropWhile pyWhitespace).reverse.dropWhile pyWhitespace).reverse)

/-- The `/narrate` handler (`src/server.py` lines 69-104).
Empty-after-strip text is rejected with a 400 before any outbound call.
A non-200 upstream status is returned as a plain dict
`{"error": "Deepgram API Error", "details": response.text}` — a `return`,
not a raise, hence HTTP status 200.  A 200 upstream response has its bytes
written to `output.wav`, and a `FileResponse` for that path (media type
`audio/wav`, suggested filename `narration.wav`) serves the just-written
file back. -/
def narrate_story (text : String) (upstream : Except String DeepgramResponse)
    (fs : Fs) : HttpResult × Fs × Bool :=
  if pyStrip text = "" then (.httpError 400 "Text is required for narration", fs, false)
  else
    match upstream with
    | .error msg => (.httpError 500 ("Failed to connect to Deepgram API: " ++ msg), fs, true)
    | .ok u =>
      if u.status_code ≠ 200 then
        (.jsonOk (.obj [("error", .str "Deepgram API Error"),
                        ("details", .str u.text)]), fs, true)
      else
        let fs' := writeFile fs u.content
        (.fileOk "output.wav" "audio/wav" "narration.wav" (readFile fs'), fs', true)

/-- Startup credential check (`src/server.py` lines 10-16):
`GEMINI_API_KEY = os.getenv("GEMINI_API_KEY")` (and likewise Deepgram),
then `if not GEMINI_API_KEY or not DEEPGRAM_API_KEY: raise ValueError`.
`os.getenv` yields `none` for an unset variable; `not x` is true for both
`None` and the empty string. -/
def startupCheck (gemini deepgram : Option String) : Except String Unit :=
  if gemini.getD "" = "" ∨ deepgram.getD "" = "" then
    .error "Missing API keys! Check your .env file."
  else
    .ok ()

/-! ## Theorems -/

theorem except_bind_ok {ε : Type} {α β : Type} (a : α) (f : α → Except ε β) :
    ((Except.ok a : Except ε α) >>= f) = f a := rfl

theorem except_map_ok {ε : Type} {α β : Type} (f : α → β) (a : α) :
    (f <$> (Except.ok a : Except ε α)) = Except.ok (f a) := rfl

theorem except_map_error {ε : Type} {α β : Type} (f : α → β) (e : ε) :
    (f <$> (Except.error e : Except ε α)) = (Except.error e : Except ε β) := rfl

/-- Helper: on a 200 upstream response with a parsed JSON body, the `try`
block runs the extraction chain and wraps its result as `{"story": story}`. -/
theorem generateTry_200 (ut : String) (j : Json) :
    generateTry ⟨200, ut, some j⟩ =
      (fun story => Json.obj [("story", story)]) <$> extract_story j := rfl

/-- Helper: a JSON object with no `candidates` key extracts the placeholder. -/
theorem extract_story_no_candidates (fields : List (String × Json))
    (hc : fields.lookup "candidates" = none) :
    extract_story (Json.obj fields) = Except.ok (Json.str "No story generated.") := by
  unfold extract_story
  simp [Json.dictGet, hc, except_bind_ok, pyIndex0]

/-- Helper: a first candidate with no `content` key extracts the placeholder. -/
theorem extract_story_no_content (c0 : List (String × Json))
    (hco : c0.lookup "content" = none) :
    extract_story (Json.obj [("candidates", Json.arr [Json.obj c0])]) =
      Except.ok (Json.str "No story generated.") := by
  unfold extract_story
  simp [Json.dictGet, hco, except_bind_ok, pyIndex0]

/-- Helper: a content object with no `parts` key extracts the placeholder. -/
theorem extract_story_no_parts (content : List (String × Json))
    (hpa : content.lookup "parts" = none) :
    extract_story (Json.obj [("candidates", Json.arr [Json.obj
      [("content", Json.obj content)]])]) =
      Except.ok (Json.str "No story generated.") := by
  unfold extract_story
  simp [Json.dictGet, hpa, except_bind_ok, pyIndex0]

/-- Helper: a first part with no `text` key extracts the placeholder. -/
theorem extract_story_no_text (p0 : List (String × Json))
    (htx : p0.lookup "text" = none) :
    extract_story (Json.obj [("candidates", Json.arr [Json.obj
      [("content", Json.obj [("parts", Json.arr [Json.obj p0])])]])]) =
      Except.ok (Json.str "No story generated.") := by
  unfold extract_story
  simp [Json.dictGet, htx, except_bind_ok, pyIndex0]

/-- Helper: a non-empty prompt plus a 200 upstream response whose
extraction succeeds with `s` yields the success payload `{"story": s}`. -/
theorem generate_200_extract_ok (p ut : String) (fs : Fs) (j s : Json) (hp : p ≠ "")
    (hj : extract_story j = Except.ok s) :
    generate_story p (Except.ok ⟨200, ut, some j⟩) fs =
      (HttpResult.jsonOk (Json.obj [("story", s)]), fs, true) := by
  simp only [generate_story, if_neg hp, generateTry_200, hj, except_map_ok]

/-- Helper: a non-empty prompt plus a 200 upstream response whose
extraction raises `IndexError` yields the generic 500 response. -/
theorem generate_200_extract_index_error (p ut : String) (fs : Fs) (j : Json) (hp : p ≠ "")
    (hj : extract_story j = Except.error (PyExc.indexError "list index out of range")) :
    generate_story p (Except.ok ⟨200, ut, some j⟩) fs =
      (HttpResult.httpError 500 "An unexpected error occurred: list index out of range",
        fs, true) := by
  simp only [generate_story, if_neg hp, generateTry_200, hj, except_map_error]
  rfl

/-- Helper: `generate_story` performs no file operation, so the file-system
slot it returns is always the one it was given. -/
theorem generate_fs_unchanged (p : String) (u : Except String GeminiResponse) (fs : Fs) :
    (generate_story p u fs).2.1 = fs := by
  unfold generate_story
  rcases u with msg | g
  · split <;> rfl
  · split
    · rfl
    · rcases h : generateTry g with e | b
      · rcases e <;> simp [h]
      · simp [h]

/-- C1: evaluation at the failing input.  For prompt `"hi"` and an upstream
404 with body `"not found"`, the handler answers with HTTP status 500 (not
the upstream 404): the `HTTPException(404, ...)` raised on line 49 is
caught by the handler's own `except Exception` clause and replaced by
`HTTPException(500, "An unexpected error occurred: " + str(e))`. -/
theorem generate_upstream_error_swallowed :
    generate_story "hi" (Except.ok ⟨404, "not found", none⟩) none =
      (HttpResult.httpError 500 "An unexpected error occurred: 404: Gemini API Error: not found",
        none, true) := rfl

/-- C2 counterexample: a 200 upstream response whose JSON body has
`candidates` present but equal to the empty list does NOT yield the
placeholder story; `[0]` raises `IndexError`, which the `except Exception`
clause converts into a 500 response. -/
theorem generate_empty_candidates_counterexample :
    generate_story "hi" (Except.ok ⟨200, "", some (Json.obj [("candidates", Json.arr [])])⟩)
        none =
      (HttpResult.httpError 500 "An unexpected error occurred: list index out of range",
        none, true) ∧
    generate_story "hi" (Except.ok ⟨200, "", some (Json.obj [("candidates", Json.arr [])])⟩)
        none ≠
      (HttpResult.jsonOk (Json.obj [("story", Json.str "No story generated.")]),
        none, true) := by
  refine ⟨rfl, fun h => ?_⟩
  have h1 : HttpResult.httpError 500 "An unexpected error occurred: list index out of range" =
      HttpResult.jsonOk (Json.obj [("story", Json.str "No story generated.")]) :=
    congrArg Prod.fst h
  exact HttpResult.noConfusion h1

/-- C2 (amended): on a 200 upstream response, a missing KEY at any level of
the path candidates → content → parts → text falls back to the placeholder
`"No story generated."`; but a candidates container that is present and an
empty list yields a 500 internal error instead of the placeholder. -/
theorem generate_missing_key_placeholder (p ut : String) (fs : Fs)
    (fields c0 content p0 : List (String × Json))
    (hp : p ≠ "")
    (hc : fields.lookup "candidates" = none)
    (hco : c0.lookup "content" = none)
    (hpa : content.lookup "parts" = none)
    (htx : p0.lookup "text" = none) :
    generate_story p (Except.ok ⟨200, ut, some (Json.obj fields)⟩) fs =
      (HttpResult.jsonOk (Json.obj [("story", Json.str "No story generated.")]), fs, true) ∧
    generate_story p (Except.ok ⟨200, ut,
        some (Json.obj [("candidates", Json.arr [Json.obj c0])])⟩) fs =
      (HttpResult.jsonOk (Json.obj [("story", Json.str "No story generated.")]), fs, true) ∧
    generate_story p (Except.ok ⟨200, ut,
        some (Json.obj [("candidates", Json.arr [Json.obj
          [("content", Json.obj content)]])])⟩) fs =
      (HttpResult.jsonOk (Json.obj [("story", Json.str "No story generated.")]), fs, true) ∧
    generate_story p (Except.ok ⟨200, ut,
        some (Json.obj [("candidates", Json.arr [Json.obj
          [("content", Json.obj [("parts", Json.arr [Json.obj p0])])]])])⟩) fs =
      (HttpResult.jsonOk (Json.obj [("story", Json.str "No story generated.")]), fs, true) ∧
    generate_story p (Except.ok ⟨200, ut, some (Json.obj [("candidates", Json.arr [])])⟩) fs =
      (HttpResult.httpError 500 "An unexpected error occurred: list index out of range",
        fs, true) := by
  refine ⟨generate_200_extract_ok p ut fs _ _ hp (extract_story_no_candidates fields hc),
    generate_200_extract_ok p ut fs _ _ hp (extract_story_no_content c0 hco),
    generate_200_extract_ok p ut fs _ _ hp (extract_story_no_parts content hpa),
    generate_200_extract_ok p ut fs _ _ hp (extract_story_no_text p0 htx),
    generate_200_extract_index_error p ut fs _ hp rfl⟩

/-- Witness for C2's amended theorem at empty dicts everywhere. -/
theorem generate_missing_key_placeholder_witness :
    generate_story "hi" (Except.ok ⟨200, "", some (Json.obj [])⟩) none =
      (HttpResult.jsonOk (Json.obj [("story", Json.str "No story generated.")]), none, true) :=
  (generate_missing_key_placeholder "hi" "" none [] [] [] [] (by decide) rfl rfl rfl rfl).1

/-- C3 counterexample: a whitespace-only prompt (a single space) is NOT
rejected — `if not request.prompt` only catches the empty string — so the
outbound call is made and, here, a 200 success is returned. -/
theorem generate_whitespace_prompt_counterexample :
    generate_story " " (Except.ok ⟨200, "", some (Json.obj [])⟩) none =
      (HttpResult.jsonOk (Json.obj [("story", Json.str "No story generated.")]), none, true) ∧
    (generate_story " " (Except.ok ⟨200, "", some (Json.obj [])⟩) none).2.2 = true :=
  ⟨rfl, rfl⟩

/-- C3 (amended): only the EMPTY-string prompt is rejected with a 400
(`"Prompt is required"`) and no outbound call; every non-empty prompt —
whitespace-only included — proceeds to the outbound call. -/
theorem generate_prompt_gate (p : String) (u : Except String GeminiResponse) (fs : Fs) :
    (p = "" →
      generate_story p u fs = (HttpResult.httpError 400 "Prompt is required", fs, false)) ∧
    (p ≠ "" → (generate_story p u fs).2.2 = true) := by
  constructor
  · intro hp
    simp [generate_story, hp]
  · intro hp
    unfold generate_story
    rw [if_neg hp]
    rcases u with msg | g
    · rfl
    · rcases h : generateTry g with e | b
      · rcases e <;> simp [h]
      · simp [h]

/-- Witness for C3's amended theorem: empty prompt rejected without a
call; a one-space prompt triggers the outbound call. -/
theorem generate_prompt_gate_witness :
    generate_story "" (Except.error "boom") none =
      (HttpResult.httpError 400 "Prompt is required", none, false) ∧
    (generate_story " " (Except.error "boom") none).2.2 = true :=
  ⟨(generate_prompt_gate "" (Except.error "boom") none).1 rfl,
   (generate_prompt_gate " " (Except.error "boom") none).2 (by decide)⟩

/-- C4: on a non-200 upstream narration status, `/narrate` returns (status
200, a plain dict `return`) the body
`{"error": "Deepgram API Error", "details": <upstream body text>}`,
carrying the upstream failure text verbatim. -/
theorem narrate_upstream_error_envelope (text : String) (u : DeepgramResponse) (fs : Fs)
    (hne : pyStrip text ≠ "") (hst : u.status_code ≠ 200) :
    narrate_story text (Except.ok u) fs =
      (HttpResult.jsonOk (Json.obj [("error", Json.str "Deepgram API Error"),
        ("details", Json.str u.text)]), fs, true) := by
  simp [narrate_story, hne, hst]

/-- Witness for C4 at text `"hi"`, upstream status 500 with body
`"upstream failed"`. -/
theorem narrate_upstream_error_envelope_witness :
    narrate_story "hi" (Except.ok ⟨500, "upstream failed", []⟩) none =
      (HttpResult.jsonOk (Json.obj [("error", Json.str "Deepgram API Error"),
        ("details", Json.str "upstream failed")]), none, true) :=
  narrate_upstream_error_envelope "hi" ⟨500, "upstream failed", []⟩ none
    (by decide) (by decide)

/-- C5: on a 200 upstream narration response with body bytes `B`, the
handler overwrites `output.wav` with exactly `B` and answers with a
`FileResponse` for that path — media type `audio/wav`, suggested filename
`narration.wav` — whose served body (read back from the just-written
file) is exactly `B`. -/
theorem narrate_upstream_success_file (text : String) (u : DeepgramResponse) (fs : Fs)
    (hne : pyStrip text ≠ "") (hst : u.status_code = 200) :
    narrate_story text (Except.ok u) fs =
      (HttpResult.fileOk "output.wav" "audio/wav" "narration.wav" u.content,
        some u.content, true) := by
  simp [narrate_story, hne, hst, writeFile, readFile]

/-- Witness for C5 at the bytes of `"RIFF...."`. -/
theorem narrate_upstream_success_file_witness :
    narrate_story "hi" (Except.ok ⟨200, "", [82, 73, 70, 70, 46, 46, 46, 46]⟩) none =
      (HttpResult.fileOk "output.wav" "audio/wav" "narration.wav"
        [82, 73, 70, 70, 46, 46, 46, 46], some [82, 73, 70, 70, 46, 46, 46, 46], true) :=
  narrate_upstream_success_file "hi" ⟨200, "", [82, 73, 70, 70, 46, 46, 46, 46]⟩ none
    (by decide) rfl

/-- C6: a 200 upstream response whose JSON body is
`{"candidates": [{"content": {"parts": [{"text": T}]}}]}` makes
`/generate` return `{"story": T}`, for every string `T`. -/
theorem generate_success_story (p ut T : String) (fs : Fs) (hp : p ≠ "") :
    generate_story p (Except.ok ⟨200, ut, some (Json.obj [("candidates", Json.arr [Json.obj
      [("content", Json.obj [("parts", Json.arr [Json.obj
        [("text", Json.str T)]])])]])])⟩) fs =
      (HttpResult.jsonOk (Json.obj [("story", Json.str T)]), fs, true) := by
  unfold generate_story
  rw [if_neg hp]
  rfl

/-- Witness for C6 at `T = "Once upon a time"`. -/
theorem generate_success_story_witness :
    generate_story "hi" (Except.ok ⟨200, "", some (Json.obj [("candidates", Json.arr [Json.obj
      [("content", Json.obj [("parts", Json.arr [Json.obj
        [("text", Json.str "Once upon a time")]])])]])])⟩) none =
      (HttpResult.jsonOk (Json.obj [("story", Json.str "Once upon a time")]), none, true) :=
  generate_success_story "hi" "" "Once upon a time" none (by decide)

/-- C7: text that strips to empty is rejected by `/narrate` with a 400
(`"Text is required for narration"`) before any outbound call, leaving the
file slot untouched. -/
theorem narrate_empty_text_rejected (text : String) (upstream : Except String DeepgramResponse)
    (fs : Fs) (h : pyStrip text = "") :
    narrate_story text upstream fs =
      (HttpResult.httpError 400 "Text is required for narration", fs, false) := by
  simp [narrate_story, h]

/-- Witness for C7 at a whitespace-only text. -/
theorem narrate_empty_text_rejected_witness :
    narrate_story "  " (Except.error "down") (some [7]) =
      (HttpResult.httpError 400 "Text is required for narration", some [7], false) :=
  narrate_empty_text_rejected "  " (Except.error "down") (some [7]) (by decide)

/-- C8: the startup check fails with the fatal `ValueError` exactly when
either credential is unset or the empty string, and succeeds exactly when
both are present and non-empty. -/
theorem startup_gate (g d : Option String) :
    (startupCheck g d = Except.error "Missing API keys! Check your .env file." ↔
      g = none ∨ g = some "" ∨ d = none ∨ d = some "") ∧
    (startupCheck g d = Except.ok () ↔
      (∃ s, g = some s ∧ s ≠ "") ∧ ∃ s, d = some s ∧ s ≠ "") := by
  rcases g with _ | s <;> rcases d with _ | t
  all_goals simp [startupCheck]
  all_goals tauto

/-- C9: `/generate` is a pure function of the request and the upstream
behaviour: it leaves the process state (the file slot) unchanged, so
running the very same request again — on the state produced by the first
run — yields a byte-identical result. -/
theorem generate_deterministic (p : String) (u : Except String GeminiResponse) (fs : Fs) :
    generate_story p u ((generate_story p u fs).2.1) = generate_story p u fs ∧
    (generate_story p u fs).2.1 = fs :=
  ⟨by rw [generate_fs_unchanged], generate_fs_unchanged p u fs⟩

/-- C10: on a non-200 upstream narration status the handler returns before
reaching the file write, so the `output.wav` slot is exactly what it was
before the request. -/
theorem narrate_error_preserves_file (text : String) (u : DeepgramResponse) (fs : Fs)
    (hne : pyStrip text ≠ "") (hst : u.status_code ≠ 200) :
    (narrate_story text (Except.ok u) fs).2.1 = fs := by
  simp [narrate_story, hne, hst]

/-- Witness for C10: a pre-existing file survives a failed narration. -/
theorem narrate_error_preserves_file_witness :
    (narrate_story "hi" (Except.ok ⟨429, "too many requests", [9, 9]⟩) (some [1, 2, 3])).2.1 =
      some [1, 2, 3] :=
  narrate_error_preserves_file "hi" ⟨429, "too many requests", [9, 9]⟩ (some [1, 2, 3])
    (by decide) (by decide)

end DreamSync
